import Mathlib

/-!
Shallow embedding of the recipe scoring and filtering engine implemented in
`backend/routers/chat.py` (helper functions `infer_nutrition_goal`,
`_get_macro`, `compute_nutrition_score`, `compute_mood_energy_score`,
`compute_expiring_score`, and `score_recipes`).

Numeric values are modelled as rationals (`ℚ`).  Dynamically-typed Python
macro fields, which can hold a number or (malformed input) a string, are
modelled by `PyVal`; a Python comparison between a string and a number raises
`TypeError`, which is modelled by the `Except String` monad.  The external
mood/energy predictor `predict_both` is modelled as an explicit function
argument returning `Except String (MLResult × MLResult)`: a `.error` value
models the predictor raising an exception.
-/

namespace ChatScoring

/-- A dynamically typed Python value stored in a macro field of a recipe:
either a number or a (malformed, non-numeric) string. -/
inductive PyVal where
  | num (q : ℚ)
  | str (s : String)
deriving DecidableEq, Repr, Inhabited

/-- Using a string where a number is required raises a Python `TypeError`;
numeric values convert successfully. -/
def PyVal.toNum : PyVal → Except String ℚ
  | .num q => .ok q
  | .str _ => .error "TypeError: comparison not supported between str and number"

/-- The `expiration_date` attribute of a pantry item: a `date` object, an ISO
string that parses to a date, or a string that `datetime.fromisoformat`
rejects.  Dates are represented by their day number (days since an arbitrary
epoch), so `exp_date - today` is integer subtraction. -/
inductive ExpDate where
  | onDate (epochDay : Int)
  | isoStr (epochDay : Int)
  | badStr
deriving DecidableEq, Repr, Inhabited

/-- Pantry `Item` (`models.Item`): only the fields read by the scoring code. -/
structure Item where
  name : String
  expiration_date : Option ExpDate := none
deriving DecidableEq, Repr, Inhabited

/-- Embeds `models.RecipeIngredient`: only the `name` field is read. -/
structure RecipeIngredient where
  name : String
deriving DecidableEq, Repr, Inhabited

/-- Embeds `models.Recipe`: the fields read by the scoring code.  Macro fields are
`Option PyVal` because the Python code accesses them dynamically and the
error-handling spec explicitly considers non-numeric macro values. -/
structure Recipe where
  id : Int
  title : String := ""
  time_minutes : Option Int := none
  diet : Option String := none
  protein_g : Option PyVal := none
  carbs_g : Option PyVal := none
  fat_g : Option PyVal := none
  calories : Option PyVal := none
  nutrition_protein_g : Option PyVal := none
  nutrition_carbs_g : Option PyVal := none
  nutrition_fat_g : Option PyVal := none
  nutrition_calories : Option PyVal := none
  nutrition_sugar_g : Option PyVal := none
  ingredients : List RecipeIngredient := []
deriving DecidableEq, Repr, Inhabited

/-- Embeds `models.UserConstraints`: the fields read by the scoring code.
`prioritizeMac` embeds the Python field `prioritize_macro`. -/
structure UserConstraints where
  mood : Option String := none
  energy_level : Option String := none
  diet_types : Option (List String) := none
  include_ingredients : Option (List String) := none
  exclude_ingredients : Option (List String) := none
  max_time_minutes : Option Int := none
  prioritizeMac : Option String := none
  nutrition_goal : Option String := none
deriving DecidableEq, Repr, Inhabited

/-! ### Python primitives: truthiness, substring test, `str.join`, `int()` -/

/-- Python truthiness of an optional string (`None` and `""` are falsy). -/
def truthyStr : Option String → Bool
  | none => false
  | some s => !(s == "")

/-- Python truthiness of an optional int (`None` and `0` are falsy). -/
def truthyInt : Option Int → Bool
  | none => false
  | some n => !(n == 0)

/-- Python truthiness of an optional list (`None` and `[]` are falsy). -/
def truthyList : Option (List String) → Bool
  | none => false
  | some l => !l.isEmpty

/-- Holds when `needle` occurs as a contiguous sublist of `hay`. -/
def subList (needle : List Char) : List Char → Bool
  | [] => needle.isEmpty
  | c :: t => needle.isPrefixOf (c :: t) || subList needle t

/-- Python's `needle in hay` substring test on strings. -/
def pyIn (needle hay : String) : Bool :=
  subList needle.toList hay.toList

/-- Python's `sep.join(parts)`. -/
def pyJoin (sep : String) : List String → String
  | [] => ""
  | [x] => x
  | x :: y :: t => x ++ sep ++ pyJoin sep (y :: t)

/-- Python's `int()` applied to a rational: truncation toward zero. -/
def pyInt (q : ℚ) : Int :=
  if 0 ≤ q then q.floor else q.ceil

/-- Python dict insertion on an insertion-ordered association list: an
existing key keeps its position but gets the new value; a fresh key is
appended at the end. -/
def dictInsert (m : List (String × ℚ)) (k : String) (v : ℚ) : List (String × ℚ) :=
  if m.any (fun p => p.1 == k) then
    m.map (fun p => if p.1 == k then (k, v) else p)
  else
    m ++ [(k, v)]

/-- Insertion-ordered, deduplicated key list of a Python dict built from the
given keys (used for `pantry_items_map` whose values are never read). -/
def dictKeys (ks : List String) : List String :=
  ks.foldl (fun acc k => if acc.contains k then acc else acc ++ [k]) []

/-! ### Nutrition goal resolution and scoring -/

/-- The module-level `NUTRITION_THRESHOLDS` table from `chat.py`. -/
def NUTRITION_THRESHOLDS : List (String × List (String × ℚ)) :=
  [("high_protein", [("protein_g", 30)]),
   ("low_carb", [("carbs_g", 35)]),
   ("low_calorie", [("calories", 550)])]

/-- Embeds `macro_hint in ["high_protein", "low_carb", "low_calorie"]` where the
hint may be `None`. -/
def macHintValid : Option String → Bool
  | none => false
  | some m => m == "high_protein" || m == "low_carb" || m == "low_calorie"

/-- Embeds `infer_nutrition_goal` from `chat.py`. -/
def infer_nutrition_goal (c : UserConstraints) : Option String :=
  if truthyStr c.nutrition_goal then c.nutrition_goal
  else if macHintValid c.prioritizeMac then c.prioritizeMac
  else
    let energy := (c.energy_level.getD "").toLower
    if energy == "high" then some "high_protein"
    else if energy == "low" then some "low_calorie"
    else none

/-- Embeds `getattr(recipe, key, None)` for the base macro attribute names that
exist on `models.Recipe`. -/
def attrBase (r : Recipe) : String → Option PyVal
  | "protein_g" => r.protein_g
  | "carbs_g" => r.carbs_g
  | "fat_g" => r.fat_g
  | "calories" => r.calories
  | _ => none

/-- Embeds `getattr(recipe, "nutrition_" + key, None)` for the alternate
`nutrition_`-prefixed macro attribute names on `models.Recipe`. -/
def attrAlt (r : Recipe) : String → Option PyVal
  | "protein_g" => r.nutrition_protein_g
  | "carbs_g" => r.nutrition_carbs_g
  | "fat_g" => r.nutrition_fat_g
  | "calories" => r.nutrition_calories
  | "sugar_g" => r.nutrition_sugar_g
  | _ => none

/-- Embeds `_get_macro` from `chat.py`: the base field if present, else the
`nutrition_`-prefixed alternate. -/
def getNutrient (r : Recipe) (key : String) : Option PyVal :=
  match attrBase r key with
  | some v => some v
  | none => attrAlt r key

/-- The debug dict built by `compute_nutrition_score`.  `macVals` embeds
`debug["macros"]` and `missingList` embeds `debug["missing_macros"]`. -/
structure NutritionDebug where
  goal : Option String
  thresholds : Option (List (String × ℚ))
  macVals : List (String × Option PyVal)
  components : List (String × ℚ)
  missingList : List String
  score : Option ℚ
deriving DecidableEq, Repr, Inhabited

/-- One iteration of the `for macro_key, target in thresholds.items()` loop
of `compute_nutrition_score`.  State: (debug, component scores, reasons). -/
def nutritionStep (r : Recipe) (direction : String)
    (st : NutritionDebug × List ℚ × List String) (kt : String × ℚ) :
    Except String (NutritionDebug × List ℚ × List String) :=
  let (dbg, comps, reasons) := st
  let mkey := kt.1
  let target := kt.2
  let value := getNutrient r mkey
  let dbg := { dbg with macVals := dbg.macVals ++ [(mkey, value)] }
  match value with
  | none => .ok ({ dbg with missingList := dbg.missingList ++ [mkey] }, comps, reasons)
  | some v =>
    match v.toNum with
    | .error e => .error e
    | .ok q =>
      let (comp, reason) :=
        if direction == "high" then
          if target * (13/10) ≤ q then
            (1, mkey ++ " " ++ toString (pyInt q) ++ "g is well above " ++
              toString (pyInt target) ++ "g goal")
          else if target ≤ q then
            (3/5, mkey ++ " " ++ toString (pyInt q) ++ "g meets " ++
              toString (pyInt target) ++ "g goal")
          else
            (-(1/2), mkey ++ " " ++ toString (pyInt q) ++ "g is below " ++
              toString (pyInt target) ++ "g goal")
        else
          if q ≤ target * (7/10) then
            (1, mkey ++ " " ++ toString (pyInt q) ++ " is well under " ++
              toString (pyInt target) ++ " limit")
          else if q ≤ target then
            (2/5, mkey ++ " " ++ toString (pyInt q) ++ " is under " ++
              toString (pyInt target) ++ " limit")
          else
            (-(3/5), mkey ++ " " ++ toString (pyInt q) ++ " exceeds " ++
              toString (pyInt target) ++ " limit")
      .ok ({ dbg with components := dbg.components ++ [(mkey, comp)] },
        comps ++ [comp], reasons ++ [reason])

/-- Embeds `compute_nutrition_score` from `chat.py`.  Returns
`(score, explanation, debug)`, or `.error` when the Python code would raise
(comparing a non-numeric macro value against the numeric target). -/
def compute_nutrition_score (r : Recipe) (c : UserConstraints) :
    Except String (ℚ × String × NutritionDebug) :=
  let goal := infer_nutrition_goal c
  let thresholdsOpt := match goal with
    | some g => NUTRITION_THRESHOLDS.lookup g
    | none => none
  let debug0 : NutritionDebug :=
    { goal := goal, thresholds := thresholdsOpt, macVals := [],
      components := [], missingList := [], score := none }
  if !truthyStr goal || thresholdsOpt.isNone then
    .ok (0, "No nutrition goal specified", debug0)
  else
    match thresholdsOpt with
    | none => .ok (0, "No nutrition goal specified", debug0)
    | some thresholds =>
      let direction := if goal == some "high_protein" then "high" else "low"
      match thresholds.foldlM (nutritionStep r direction) (debug0, [], []) with
      | .error e => .error e
      | .ok (dbg, comps, reasons) =>
        if comps.isEmpty then
          .ok (0, "No nutrition data on recipe", dbg)
        else
          let avg := comps.sum / (comps.length : ℚ)
          let final := max (-1) (min 1 avg)
          let explanation := if !reasons.isEmpty then pyJoin "; " reasons
            else "Nutrition goal considered"
          .ok (final, explanation, { dbg with score := some final })

/-! ### Mood/energy scorer -/

/-- An external predictor result: `{"label": ..., "score": ..., "confidence": ...}`. -/
structure MLResult where
  label : String
  score : ℚ
  confidence : ℚ
deriving DecidableEq, Repr, Inhabited

/-- The external `predict_both` contract: called with the nutrition dict, it
either returns a `(mood_result, energy_result)` pair or raises (modelled by
`.error`). -/
def Pred : Type := List (String × PyVal) → Except String (MLResult × MLResult)

/-- Python's `round` (half to even) on a rational, used by `%`-formatting. -/
def pyRound (q : ℚ) : Int :=
  let f := q.floor
  if q - (f : ℚ) < 1/2 then f
  else if (1/2 : ℚ) < q - (f : ℚ) then f + 1
  else if f % 2 = 0 then f else f + 1

/-- Python's `f"{q:.0%}"` percentage formatting. -/
def pctFmt (q : ℚ) : String :=
  toString (pyRound (q * 100)) ++ "%"

/-- The debug dict built by `compute_mood_energy_score`. -/
structure MoodEnergyDebug where
  mood : String
  energy : String
  calories : Option PyVal
  fat_g : Option PyVal
  protein_g : Option PyVal
  carbs_g : Option PyVal
  sugar_g : Option PyVal
  time_minutes : Option Int
  ml_used : Bool
  ml_mood : Option MLResult
  ml_energy : Option MLResult
  ml_error : Option String
  score : Option ℚ
deriving DecidableEq, Repr, Inhabited

/-- The `nutrition_data` dict built by `compute_mood_energy_score` before
calling the predictor (insertion order as in the source). -/
def nutritionData (cv : PyVal) (protein carbs fat sugar : Option PyVal) :
    List (String × PyVal) :=
  [("calories", cv)]
    ++ (match protein with | some p => [("protein_g", p)] | none => [])
    ++ (match carbs with | some p => [("carbs_g", p)] | none => [])
    ++ (match fat with | some p => [("fat_g", p)] | none => [])
    ++ (match sugar with | some p => [("sugar_g", p)] | none => [])

/-- The mood-mapping block applied to the ML mood result
(`if mood: ...` inside the try-block of `compute_mood_energy_score`). -/
def mlAdjustMood (mood : String) (mr : MLResult) : ℚ × List String :=
  if mood == "" then (0, [])
  else
    let lbl := mr.label.toLower
    let conf := mr.confidence
    if mood == "comfort" || mood == "cozy" || mood == "hearty" ||
        mood == "happy" || mood == "good" then
      if lbl == "happy" then
        (1/2 * conf,
          ["ML predicts " ++ lbl ++ " mood (conf: " ++ pctFmt conf ++ ")"])
      else if lbl == "sad" then
        (-(3/10) * conf,
          ["ML predicts " ++ lbl ++ " mood - may not match comfort request"])
      else (0, [])
    else if mood == "light" || mood == "fresh" || mood == "healthy" then
      if lbl == "neutral" || lbl == "happy" then
        (3/10 * conf,
          ["ML predicts " ++ lbl ++ " mood - good for light meal"])
      else (0, [])
    else
      if lbl == "neutral" then (1/5 * conf, ["ML predicts neutral mood"])
      else (0, [])

/-- The energy-mapping block applied to the ML energy result
(`if energy: ...` inside the try-block of `compute_mood_energy_score`). -/
def mlAdjustEnergy (energy : String) (er : MLResult) : ℚ × List String :=
  if energy == "" then (0, [])
  else
    let lbl := er.label.toLower
    let conf := er.confidence
    if energy == "low" then
      if pyIn "low" lbl || pyIn "normal" lbl then
        (2/5 * conf,
          ["ML predicts " ++ lbl ++ " energy (conf: " ++ pctFmt conf ++ ")"])
      else
        (-(1/5) * conf, ["ML predicts " ++ lbl ++ " - may be too energizing"])
    else if energy == "high" then
      if pyIn "burst" lbl || pyIn "energy" lbl then
        (1/2 * conf,
          ["ML predicts " ++ lbl ++ " (conf: " ++ pctFmt conf ++ ")"])
      else if pyIn "normal" lbl then
        (1/5 * conf, ["ML predicts " ++ lbl ++ " energy"])
      else (0, [])
    else
      if pyIn "normal" lbl then (3/10 * conf, ["ML predicts " ++ lbl ++ " energy"])
      else (0, [])

/-- The `energy`-driven heuristic hints of `compute_mood_energy_score`.
Preserves Python's evaluation order: in the "low" branch the calories
comparison (which can raise on a non-numeric value) happens before the pure
`time_minutes` check is appended. -/
def heuristicEnergy (energy : String) (calories protein : Option PyVal)
    (time_minutes : Option Int) : Except String (ℚ × List String) :=
  if energy == "low" then
    let timePart : ℚ × List String :=
      match time_minutes with
      | some t => if t ≠ 0 ∧ t ≤ 30 then (1/10, ["quick prep for low energy"])
          else (0, [])
      | none => (0, [])
    match calories with
    | none => .ok timePart
    | some cv =>
      match cv.toNum with
      | .error e => .error e
      | .ok q =>
        if q ≤ 550 then
          .ok (3/10 + timePart.1, "lighter on calories for low energy" :: timePart.2)
        else .ok timePart
  else if energy == "high" then
    match protein with
    | none => .ok (0, [])
    | some pv =>
      match pv.toNum with
      | .error e => .error e
      | .ok q =>
        if 25 ≤ q then .ok (3/10, ["higher protein for high energy"])
        else if 15 ≤ q then .ok (1/10, ["moderate protein for energy"])
        else .ok (0, [])
  else .ok (0, [])

/-- The `mood`-driven heuristic hints of `compute_mood_energy_score`,
preserving Python's short-circuit evaluation order. -/
def heuristicMood (mood : String) (calories fat protein : Option PyVal) :
    Except String (ℚ × List String) :=
  if mood == "comfort" || mood == "cozy" || mood == "hearty" then
    match calories with
    | none => .ok (-(1/10), ["may be lighter than comfort craving"])
    | some cv =>
      match cv.toNum with
      | .error e => .error e
      | .ok q =>
        if 650 ≤ q then .ok (3/10, ["comforting calories"])
        else .ok (-(1/10), ["may be lighter than comfort craving"])
  else if mood == "light" || mood == "fresh" || mood == "healthy" then
    match calories with
    | none => .ok (-(1/10), ["may be heavier than requested light mood"])
    | some cv =>
      match cv.toNum with
      | .error e => .error e
      | .ok q =>
        if 550 < q then .ok (-(1/10), ["may be heavier than requested light mood"])
        else
          match fat with
          | none => .ok (3/10, ["light profile"])
          | some fv =>
            match fv.toNum with
            | .error e => .error e
            | .ok fq =>
              if fq ≤ 20 then .ok (3/10, ["light profile"])
              else .ok (-(1/10), ["may be heavier than requested light mood"])
  else if mood == "focus" || mood == "post-workout" || mood == "gym" ||
      mood == "muscle" then
    match protein with
    | none => .ok (-(1/10), ["may need more protein for focus/recovery"])
    | some pv =>
      match pv.toNum with
      | .error e => .error e
      | .ok q =>
        if 25 ≤ q then .ok (3/10, ["protein to support focus/recovery"])
        else .ok (-(1/10), ["may need more protein for focus/recovery"])
  else .ok (0, [])

/-- The heuristic fallback block of `compute_mood_energy_score`: energy hints
then mood hints, added onto the score and reasons accumulated so far. -/
def heuristicHints (score0 : ℚ) (reasons0 : List String) (energy mood : String)
    (calories fat protein : Option PyVal) (time_minutes : Option Int) :
    Except String (ℚ × List String) :=
  match heuristicEnergy energy calories protein time_minutes with
  | .error e => .error e
  | .ok (se, re) =>
    match heuristicMood mood calories fat protein with
    | .error e => .error e
    | .ok (sm, rm) => .ok (score0 + se + sm, reasons0 ++ re ++ rm)

/-- Embeds `compute_mood_energy_score` from `chat.py`, parameterized by the external
predictor `P` (the imported `predict_both`). -/
def compute_mood_energy_score (P : Pred) (r : Recipe) (c : UserConstraints) :
    Except String (ℚ × String × MoodEnergyDebug) :=
  let mood := (c.mood.getD "").toLower
  let energy := (c.energy_level.getD "").toLower
  let calories := getNutrient r "calories"
  let fat := getNutrient r "fat_g"
  let protein := getNutrient r "protein_g"
  let carbs := getNutrient r "carbs_g"
  let sugar := getNutrient r "sugar_g"
  let tm := r.time_minutes
  let dbg0 : MoodEnergyDebug :=
    { mood := mood, energy := energy, calories := calories, fat_g := fat,
      protein_g := protein, carbs_g := carbs, sugar_g := sugar,
      time_minutes := tm, ml_used := false, ml_mood := none, ml_energy := none,
      ml_error := none, score := none }
  let phase1 : ℚ × List String × MoodEnergyDebug :=
    match calories with
    | none => (0, [], dbg0)
    | some cv =>
      match P (nutritionData cv protein carbs fat sugar) with
      | .error e => (0, [], { dbg0 with ml_error := some e, ml_used := false })
      | .ok (mr, er) =>
        let (ms, mrs) := mlAdjustMood mood mr
        let (es, ers) := mlAdjustEnergy energy er
        let mlScore := ms + es
        let d := { dbg0 with ml_used := true, ml_mood := some mr, ml_energy := some er }
        ((if mlScore ≠ 0 then mlScore else 0), mrs ++ ers, d)
  let score1 := phase1.1
  let reasons1 := phase1.2.1
  let dbg1 := phase1.2.2
  match (if dbg1.ml_used = false ∨ score1 = 0 then
      heuristicHints score1 reasons1 energy mood calories fat protein tm
    else .ok (score1, reasons1)) with
  | .error e => .error e
  | .ok (s2, rs2) =>
    let final := max (-1) (min 1 s2)
    .ok (final,
      (if !rs2.isEmpty then pyJoin "; " rs2 else "Mood/energy neutral"),
      { dbg1 with score := some final })

/-! ### Expiring-items scorer -/

/-- The weight the pantry-map loop of `compute_expiring_score` assigns to a
single pantry item: `1.0` for 0–7 days until expiry, `0.5` for 8–14 days,
nothing otherwise (no date, unparsable date, or outside the window). -/
def itemWeight (today : Int) (it : Item) : Option ℚ :=
  match it.expiration_date with
  | none => none
  | some .badStr => none
  | some (.onDate d) | some (.isoStr d) =>
    let delta := d - today
    if 0 ≤ delta ∧ delta ≤ 7 then some 1
    else if 7 < delta ∧ delta ≤ 14 then some (1/2)
    else none

/-- The `pantry_map` dict of `compute_expiring_score`: lowercased item name
to expiry weight, built in pantry-list order with Python dict semantics. -/
def buildPantryMap (pantry : List Item) (today : Int) : List (String × ℚ) :=
  pantry.foldl
    (fun m it =>
      match itemWeight today it with
      | none => m
      | some w => dictInsert m it.name.toLower w)
    []

/-- Lowercased recipe ingredient names (`ing_names` in the source). -/
def ingNames (r : Recipe) : List String :=
  r.ingredients.map (fun ri => ri.name.toLower)

/-- The ingredient-matching loop of `compute_expiring_score`: for each
ingredient the first matching `pantry_map` entry contributes its weight once. -/
def expMatchFold (pmap : List (String × ℚ)) (ings : List String) :
    ℚ × List String :=
  ings.foldl
    (fun acc ing =>
      match pmap.find? (fun p => pyIn p.1 ing || pyIn ing p.1) with
      | some pw => (acc.1 + pw.2, acc.2 ++ [pw.1])
      | none => acc)
    (0, [])

/-- Embeds `compute_expiring_score` from `chat.py`. -/
def compute_expiring_score (r : Recipe) (pantry : List Item) (today : Int) :
    ℚ × List String :=
  let ings := ingNames r
  if ings.isEmpty then (0, [])
  else
    let pmap := buildPantryMap pantry today
    let tw := expMatchFold pmap ings
    (min 1 (tw.1 / (ings.length : ℚ)), tw.2)

/-! ### Hard filters -/

/-- Meat keyword list used by the diet-inference filter. -/
def meat_keywords : List String :=
  ["chicken", "beef", "pork", "lamb", "turkey", "bacon", "sausage", "meat"]

/-- Fish keyword list used by the diet-inference filter. -/
def fish_keywords : List String :=
  ["fish", "salmon", "tuna", "shrimp", "seafood", "cod", "tilapia"]

/-- Dairy keyword list used by the diet-inference filter. -/
def dairy_keywords : List String :=
  ["milk", "cheese", "butter", "cream", "yogurt"]

/-- Hard filter 0 (`if not ing_names: continue`): the recipe must have at
least one ingredient. -/
def p_ing (r : Recipe) : Bool :=
  !(ingNames r).isEmpty

/-- Hard filter 1 (time): discard when both `max_time_minutes` and
`time_minutes` are truthy and the recipe exceeds the limit. -/
def p_time (c : UserConstraints) (r : Recipe) : Bool :=
  match c.max_time_minutes, r.time_minutes with
  | some m, some t => if m ≠ 0 ∧ t ≠ 0 then decide (t ≤ m) else true
  | _, _ => true

/-- Hard filter 2 (diet, with ingredient-based inference). -/
def p_diet (c : UserConstraints) (r : Recipe) : Bool :=
  match c.diet_types with
  | none => true
  | some dts =>
    if dts.isEmpty then true
    else
      let ings := ingNames r
      let allowed := dts.map (fun d => d.toLower)
      let explicitPass := match r.diet with
        | some d => !(d == "") && allowed.contains d.toLower
        | none => false
      if explicitPass then true
      else
        let has_meat := ings.any (fun i => meat_keywords.any (fun kw => pyIn kw i))
        let has_fish := ings.any (fun i => fish_keywords.any (fun kw => pyIn kw i))
        let has_dairy := ings.any (fun i => dairy_keywords.any (fun kw => pyIn kw i))
        let inferred : Option String :=
          if !has_meat && !has_fish && !has_dairy then some "vegan"
          else if !has_meat && !has_fish then some "vegetarian"
          else if !has_meat && has_fish then some "pescatarian"
          else none
        match inferred with
        | some idt => allowed.contains idt
        | none => false

/-- Hard filter 3 (include-ingredients): every required entry must match some
recipe ingredient by the substring test. -/
def p_include (c : UserConstraints) (r : Recipe) : Bool :=
  match c.include_ingredients with
  | none => true
  | some incl =>
    if incl.isEmpty then true
    else
      let ings := ingNames r
      (incl.map (fun s => s.toLower)).all
        (fun req => ings.any (fun i => pyIn req i || pyIn i req))

/-- Hard filter 4 (exclude-ingredients): discard when any recipe ingredient
matches any excluded term. -/
def p_exclude (c : UserConstraints) (r : Recipe) : Bool :=
  match c.exclude_ingredients with
  | none => true
  | some exc =>
    if exc.isEmpty then true
    else
      let ings := ingNames r
      !(ings.any (fun i => (exc.map (fun s => s.toLower)).any
          (fun e => pyIn e i || pyIn i e)))

/-- A recipe survives the hard-filter section of `score_recipes` iff all five
stage predicates succeed (the source short-circuits with `continue`). -/
def hardFilterPass (c : UserConstraints) (r : Recipe) : Bool :=
  p_ing r && (p_time c r && (p_diet c r && (p_include c r && p_exclude c r)))

/-! ### Composite scoring -/

/-- The `SCORE_WEIGHTS` dict local to `score_recipes`. -/
def SCORE_WEIGHTS : List (String × ℚ) :=
  [("coverage", 3/10), ("expiring", 1/4), ("nutrition", 1/5), ("mood_energy", 1/4)]

/-- Embeds the `SCORE_WEIGHTS[k]` lookup. -/
def wOf (k : String) : ℚ :=
  (SCORE_WEIGHTS.lookup k).getD 0

/-- One entry of the list returned by `score_recipes` (the Python result
dict; the sub-score debug dicts are kept as structured fields). -/
structure ScoredRecipe where
  recipe_id : Int
  title : String
  score : ℚ
  coverage : ℚ
  expiring : ℚ
  nutrition : ℚ
  mood_energy : ℚ
  time_minutes : Option Int
  reason : String
  explanation : String
  matched_expiring : List String
  nutrition_debug : NutritionDebug
  mood_energy_debug : MoodEnergyDebug
deriving DecidableEq, Repr, Inhabited

/-- Ordered insertion into an ascending list of strings. -/
def insAsc (a : String) : List String → List String
  | [] => [a]
  | b :: t => if a ≤ b then a :: b :: t else b :: insAsc a t

/-- Embeds `sorted(set(xs))`: deduplicate and sort lexicographically. -/
def sortedSet (xs : List String) : List String :=
  (xs.dedup).foldr insAsc []

/-- Scoring of a single recipe that passed the hard filters: the body of the
`score_recipes` loop after the filter section. -/
def scoreOne (P : Pred) (pantry : List Item) (c : UserConstraints)
    (today : Int) (r : Recipe) : Except String ScoredRecipe :=
  let ings := ingNames r
  let pantryKeys := dictKeys (pantry.map (fun it => it.name.toLower))
  let have_count :=
    (ings.filter (fun ing => pantryKeys.any (fun p => pyIn ing p || pyIn p ing))).length
  let coverage_score : ℚ := (have_count : ℚ) / (ings.length : ℚ)
  let ex := compute_expiring_score r pantry today
  let expiring_score := ex.1
  let matched_expiring := ex.2
  match compute_nutrition_score r c with
  | .error e => .error e
  | .ok (nutrition_score, nutrition_explanation, nutrition_debug) =>
    match compute_mood_energy_score P r c with
    | .error e => .error e
    | .ok (mood_energy_score, mood_energy_explanation, mood_energy_debug) =>
      let final_score :=
        wOf "coverage" * coverage_score + wOf "expiring" * expiring_score
          + wOf "nutrition" * nutrition_score + wOf "mood_energy" * mood_energy_score
      let reasons :=
        (if (7/10 : ℚ) ≤ coverage_score then
          ["has " ++ toString (pyInt (coverage_score * 100)) ++ "% of ingredients"]
         else [])
        ++ (if (3/10 : ℚ) ≤ expiring_score then ["uses expiring items"] else [])
        ++ (if truthyInt r.time_minutes then
            ["Quick (" ++ toString (r.time_minutes.getD 0) ++ " min)"] else [])
        ++ (if truthyStr r.diet || truthyList c.diet_types then
            [if truthyStr r.diet then r.diet.getD "" else "Matching diet"] else [])
        ++ (if 0 < nutrition_score then ["fits nutrition goal"] else [])
        ++ (if 0 < mood_energy_score then ["matches mood/energy"] else [])
      let reason_str := if !reasons.isEmpty then pyJoin ", " reasons else "Good match"
      let explanation_parts :=
        (if coverage_score ≠ 0 then
          ["Pantry coverage: " ++ toString (pyInt (coverage_score * 100)) ++ "%"]
         else [])
        ++ (if !matched_expiring.isEmpty then
            ["Uses expiring: " ++ pyJoin ", " (sortedSet matched_expiring)] else [])
        ++ (if !(nutrition_explanation == "") then [nutrition_explanation] else [])
        ++ (if !(mood_energy_explanation == "") then [mood_energy_explanation] else [])
      let explanation := pyJoin "; " explanation_parts
      .ok { recipe_id := r.id, title := r.title, score := final_score,
            coverage := coverage_score, expiring := expiring_score,
            nutrition := nutrition_score, mood_energy := mood_energy_score,
            time_minutes := r.time_minutes, reason := reason_str,
            explanation := explanation, matched_expiring := matched_expiring,
            nutrition_debug := nutrition_debug,
            mood_energy_debug := mood_energy_debug }

/-- One iteration of the `for recipe in recipes` loop of `score_recipes`. -/
def scoreStep (P : Pred) (pantry : List Item) (c : UserConstraints) (today : Int)
    (acc : List ScoredRecipe) (r : Recipe) : Except String (List ScoredRecipe) :=
  if hardFilterPass c r then
    match scoreOne P pantry c today r with
    | .error e => .error e
    | .ok entry => .ok (acc ++ [entry])
  else .ok acc

/-- Insert into a descending-by-score list, after any equal scores (so that
the overall sort below is stable). -/
def insDesc (a : ScoredRecipe) : List ScoredRecipe → List ScoredRecipe
  | [] => [a]
  | b :: t => if b.score ≤ a.score then a :: b :: t else b :: insDesc a t

/-- Stable descending sort by `score`, modelling Python's stable
`scored_recipes.sort(key=lambda x: x["score"], reverse=True)`. -/
def sortByScoreDesc : List ScoredRecipe → List ScoredRecipe
  | [] => []
  | a :: t => insDesc a (sortByScoreDesc t)

/-- Embeds `score_recipes` from `chat.py`, parameterized by the external predictor
and by `today` (the current date as a day number). -/
def score_recipes (P : Pred) (recipes : List Recipe) (pantry : List Item)
    (c : UserConstraints) (today : Int) : Except String (List ScoredRecipe) :=
  match recipes.foldlM (scoreStep P pantry c today) [] with
  | .error e => .error e
  | .ok scored => .ok (sortByScoreDesc scored)

/-! ### Derived observables and claim-support definitions -/

/-- The weight of the first `pantry_map` entry matching an ingredient, or 0. -/
def ingContribution (pmap : List (String × ℚ)) (ing : String) : ℚ :=
  ((pmap.find? (fun p => pyIn p.1 ing || pyIn ing p.1)).map Prod.snd).getD 0

/-- The name recorded for an ingredient's first matching `pantry_map` entry. -/
def ingMatchName (pmap : List (String × ℚ)) (ing : String) : Option String :=
  (pmap.find? (fun p => pyIn p.1 ing || pyIn ing p.1)).map Prod.fst

/-- The weight-map entry a pantry item generates, if any: its lowercased
name paired with its expiry weight. -/
def weightedEntry (today : Int) (it : Item) : Option (String × ℚ) :=
  (itemWeight today it).map (fun w => (it.name.toLower, w))

/-- The weighted pantry items, in pantry-list order, as weight-map entries. -/
def weightedEntries (pantry : List Item) (today : Int) : List (String × ℚ) :=
  pantry.filterMap (weightedEntry today)

/-- A macro field is absent or numeric (not a malformed string). -/
def numOpt : Option PyVal → Bool
  | some (.str _) => false
  | _ => true

/-- All macro fields of a recipe are absent or numeric. -/
def WellTyped (r : Recipe) : Bool :=
  numOpt r.protein_g && numOpt r.carbs_g && numOpt r.fat_g && numOpt r.calories
    && numOpt r.nutrition_protein_g && numOpt r.nutrition_carbs_g
    && numOpt r.nutrition_fat_g && numOpt r.nutrition_calories
    && numOpt r.nutrition_sugar_g

/-- The five hard-filter stages of `score_recipes`. -/
inductive FilterStage where
  | ingPresence
  | timeLimit
  | dietMatch
  | includeReq
  | excludeBan
deriving DecidableEq, Repr

/-- The boolean predicate each stage applies to a recipe. -/
def stagePred : FilterStage → UserConstraints → Recipe → Bool
  | .ingPresence => fun _ r => p_ing r
  | .timeLimit => p_time
  | .dietMatch => p_diet
  | .includeReq => p_include
  | .excludeBan => p_exclude

/-- Sequential application of filter stages in the given order. -/
def applyStages (order : List FilterStage) (c : UserConstraints)
    (rs : List Recipe) : List Recipe :=
  order.foldl (fun acc s => acc.filter (stagePred s c)) rs

/-- The stage order used by the source. -/
def stageOrder : List FilterStage :=
  [.ingPresence, .timeLimit, .dietMatch, .includeReq, .excludeBan]

/-- Modelled from the spec (claim C2): the first pantry item, in pantry-list
order, whose name matches the ingredient — whether or not it carries an
expiry weight. -/
def firstMatchItemC2 (pantry : List Item) (ing : String) : Option Item :=
  pantry.find? (fun it => pyIn it.name.toLower ing || pyIn ing it.name.toLower)

/-- Modelled from the spec (claim C2): the contribution of one recipe
ingredient — the expiry weight of the first matching pantry item if it has
one, and nothing if that first matching item carries no weight. -/
def claimContributionC2 (pantry : List Item) (today : Int) (ing : String) : ℚ :=
  match firstMatchItemC2 pantry ing with
  | none => 0
  | some it => (itemWeight today it).getD 0

/-- Modelled from the spec (claim C2): the expiring score that results from
the claimed first-pantry-item-match rule. -/
def claimExpiringScoreC2 (r : Recipe) (pantry : List Item) (today : Int) : ℚ :=
  if (ingNames r).isEmpty then 0
  else min 1 (((ingNames r).map (claimContributionC2 pantry today)).sum
    / ((ingNames r).length : ℚ))

/-- The score component of `compute_nutrition_score`'s result. -/
def nScoreOf (r : Recipe) (c : UserConstraints) : Except String ℚ :=
  (compute_nutrition_score r c).map (fun t => t.1)

/-- The explanation component of `compute_nutrition_score`'s result. -/
def nExplOf (r : Recipe) (c : UserConstraints) : Except String String :=
  (compute_nutrition_score r c).map (fun t => t.2.1)

/-! ### Concrete fixtures used by witnesses and counterexamples -/

/-- A predictor that always raises. -/
def predFail : Pred := fun _ => .error "predictor unavailable"

/-- A recipe carrying a malformed (non-numeric) protein value. -/
def rBadMacro : Recipe :=
  { id := 1, protein_g := some (.str "abc"), ingredients := [⟨"rice"⟩] }

/-- A well-formed recipe. -/
def rGoodMacro : Recipe :=
  { id := 2, protein_g := some (.num 35), ingredients := [⟨"beans"⟩] }

/-- Constraints requesting the `high_protein` goal. -/
def cGoalHP : UserConstraints := { nutrition_goal := some "high_protein" }

/-- Pantry whose first name-match for "milk" ("oat milk") carries no weight,
while a later item ("milk", expiring in 5 days) is weighted. -/
def pantryC2 : List Item :=
  [{ name := "oat milk" },
   { name := "milk", expiration_date := some (.onDate 5) }]

/-- A one-ingredient recipe using "milk". -/
def rMilk : Recipe := { id := 3, ingredients := [⟨"milk"⟩] }

/-- A recipe taking 45 minutes. -/
def rTime45 : Recipe :=
  { id := 7, time_minutes := some 45, ingredients := [⟨"rice"⟩] }

/-- A recipe taking 25 minutes. -/
def rTime25 : Recipe :=
  { id := 8, time_minutes := some 25, ingredients := [⟨"rice"⟩] }

/-- Constraints with `max_time_minutes = 0`. -/
def cTime0 : UserConstraints := { max_time_minutes := some 0 }

/-- Constraints with `max_time_minutes = 30`. -/
def cTime30 : UserConstraints := { max_time_minutes := some 30 }

/-- The ranking produced for `rTime25` under the 30-minute limit. -/
def outTime30 : List ScoredRecipe :=
  (score_recipes predFail [rTime25] [] cTime30 0).toOption.getD []

/-- The recipe of the end-to-end scenario in the spec. -/
def rBowl : Recipe :=
  { id := 11, title := "Bowl", time_minutes := some 20,
    protein_g := some (.num 38), carbs_g := some (.num 45),
    fat_g := some (.num 12), calories := some (.num 550),
    ingredients := [⟨"chicken"⟩, ⟨"rice"⟩] }

/-- The ranking produced for `rBowl` with an empty pantry under the
`high_protein` goal. -/
def outBowl : List ScoredRecipe :=
  (score_recipes predFail [rBowl] [] cGoalHP 0).toOption.getD []

/-- The single entry of `outBowl`. -/
def eBowl : ScoredRecipe := outBowl.headD default

/-- A recipe suited to the low-energy heuristic scenario. -/
def rLight : Recipe :=
  { id := 13, calories := some (.num 450), time_minutes := some 15,
    ingredients := [⟨"egg"⟩] }

/-- Constraints with `energy_level = "low"`. -/
def cLowEnergy : UserConstraints := { energy_level := some "low" }

/-- Constraints with the unrecognized explicit goal "keto". -/
def cKeto : UserConstraints := { nutrition_goal := some "keto" }

/-! ### Basic lemmas about the Python primitives -/

theorem subList_of_isPrefixOf {n h : List Char} (hp : n.isPrefixOf h = true) :
    subList n h = true := by
  cases h with
  | nil =>
    cases n with
    | nil => rfl
    | cons c t => simp [List.isPrefixOf] at hp
  | cons c t => simp [subList, hp]

theorem subList_append_right {n h₁ : List Char} (h₂ : List Char)
    (hs : subList n h₁ = true) : subList n (h₁ ++ h₂) = true := by
  induction h₁ with
  | nil =>
    simp [subList] at hs
    subst hs
    cases h₂ with
    | nil => rfl
    | cons c t => simp [subList, List.isPrefixOf]
  | cons c t ih =>
    simp only [subList, Bool.or_eq_true] at hs
    rcases hs with hp | hrec
    · have hp' : n.isPrefixOf ((c :: t) ++ h₂) = true := by
        rw [List.isPrefixOf_iff_prefix] at hp ⊢
        exact hp.trans (List.prefix_append _ _)
      simpa [subList] using Or.inl hp'
    · simp [subList, ih hrec]

theorem pyIn_append_left {n a : String} (b : String) (h : pyIn n a = true) :
    pyIn n (a ++ b) = true := by
  unfold pyIn at h ⊢
  rw [show (a ++ b).toList = a.toList ++ b.toList from String.data_append a b]
  exact subList_append_right _ h

theorem pyJoin_cons (sep x : String) (t : List String) :
    ∃ y, pyJoin sep (x :: t) = x ++ y := by
  cases t with
  | nil => exact ⟨"", by simp [pyJoin]⟩
  | cons z zs => exact ⟨sep ++ pyJoin sep (z :: zs), by simp [pyJoin, String.append_assoc]⟩

theorem mem_insDesc {a x : ScoredRecipe} {l : List ScoredRecipe} :
    a ∈ insDesc x l ↔ a = x ∨ a ∈ l := by
  induction l with
  | nil => simp [insDesc]
  | cons b t ih =>
    by_cases hb : b.score ≤ x.score
    · simp [insDesc, hb]
    · simp [insDesc, hb, ih]
      tauto

theorem mem_sortByScoreDesc {a : ScoredRecipe} {l : List ScoredRecipe} :
    a ∈ sortByScoreDesc l ↔ a ∈ l := by
  induction l with
  | nil => simp [sortByScoreDesc]
  | cons b t ih => simp [sortByScoreDesc, mem_insDesc, ih]

/-! ### Lemmas about the expiring-items scorer -/

theorem expMatchFold_aux (pmap : List (String × ℚ)) (ings : List String) :
    ∀ (a : ℚ) (l : List String),
      ings.foldl
        (fun acc ing =>
          match pmap.find? (fun p => pyIn p.1 ing || pyIn ing p.1) with
          | some pw => (acc.1 + pw.2, acc.2 ++ [pw.1])
          | none => acc)
        (a, l)
      = (a + (ings.map (ingContribution pmap)).sum,
         l ++ ings.filterMap (ingMatchName pmap)) := by
  induction ings with
  | nil => intro a l; simp
  | cons ing t ih =>
    intro a l
    cases hf : pmap.find? (fun p => pyIn p.1 ing || pyIn ing p.1) with
    | none =>
      simp only [List.foldl_cons, hf, List.map_cons, List.sum_cons,
        List.filterMap_cons, ingContribution, ingMatchName, hf]
      rw [ih a l]
      simp
    | some pw =>
      simp only [List.foldl_cons, hf, List.map_cons, List.sum_cons,
        List.filterMap_cons, ingContribution, ingMatchName, hf]
      rw [ih (a + pw.2) (l ++ [pw.1])]
      simp
      ring

/-- The matching loop of `compute_expiring_score` computes, for each recipe
ingredient in original order, the weight of its first matching `pantry_map`
entry (at most one contribution per ingredient). -/
theorem expMatchFold_eq (pmap : List (String × ℚ)) (ings : List String) :
    expMatchFold pmap ings
      = ((ings.map (ingContribution pmap)).sum,
         ings.filterMap (ingMatchName pmap)) := by
  unfold expMatchFold
  rw [expMatchFold_aux]
  simp

theorem itemWeight_vals {today : Int} {it : Item} {w : ℚ}
    (h : itemWeight today it = some w) : w = 1 ∨ w = 1/2 := by
  obtain ⟨name, ed⟩ := it
  unfold itemWeight at h
  rcases ed with _ | ⟨d | d | _⟩
  · simp at h
  · simp only at h
    split at h
    · left; exact (Option.some.inj h).symm
    · split at h
      · right; exact (Option.some.inj h).symm
      · simp at h
  · simp only at h
    split at h
    · left; exact (Option.some.inj h).symm
    · split at h
      · right; exact (Option.some.inj h).symm
      · simp at h
  · simp at h

theorem dictInsert_mem {m : List (String × ℚ)} {k : String} {v : ℚ}
    {p : String × ℚ} (h : p ∈ dictInsert m k v) : p ∈ m ∨ p = (k, v) := by
  unfold dictInsert at h
  split at h
  · rcases List.mem_map.mp h with ⟨q, hq, hfq⟩
    by_cases hqk : q.1 == k
    · right; simp [hqk] at hfq; exact hfq.symm
    · left; simp [hqk] at hfq; rwa [hfq] at hq
  · rcases List.mem_append.mp h with hm | hkv
    · exact Or.inl hm
    · right; simpa using hkv

theorem buildPantryMap_weights {pantry : List Item} {today : Int} :
    ∀ p ∈ buildPantryMap pantry today, p.2 = 1 ∨ p.2 = 1/2 := by
  unfold buildPantryMap
  suffices haux : ∀ (l : List Item) (m : List (String × ℚ)),
      (∀ p ∈ m, p.2 = 1 ∨ p.2 = 1/2) →
      ∀ p ∈ l.foldl
        (fun m it =>
          match itemWeight today it with
          | none => m
          | some w => dictInsert m it.name.toLower w)
        m, p.2 = 1 ∨ p.2 = 1/2 by
    exact haux pantry [] (by simp)
  intro l
  induction l with
  | nil => intro m hm p hp; exact hm p hp
  | cons it t ih =>
    intro m hm p hp
    simp only [List.foldl_cons] at hp
    cases hw : itemWeight today it with
    | none => rw [hw] at hp; exact ih m hm p hp
    | some w =>
      rw [hw] at hp
      refine ih _ ?_ p hp
      intro q hq
      rcases dictInsert_mem hq with hqm | hqe
      · exact hm q hqm
      · rw [hqe]; exact itemWeight_vals hw

theorem expiring_score_range (r : Recipe) (pantry : List Item) (today : Int) :
    0 ≤ (compute_expiring_score r pantry today).1 ∧
      (compute_expiring_score r pantry today).1 ≤ 1 := by
  simp only [compute_expiring_score]
  split
  · norm_num
  · simp only
    constructor
    · apply le_min
      · norm_num
      · apply div_nonneg
        · rw [expMatchFold_eq]
          apply List.sum_nonneg
          intro x hx
          rcases List.mem_map.mp hx with ⟨ing, _, hc⟩
          subst hc
          unfold ingContribution
          cases hf : (buildPantryMap pantry today).find?
              (fun p => pyIn p.1 ing || pyIn ing p.1) with
          | none => simp
          | some pw =>
            rcases buildPantryMap_weights pw (List.mem_of_find?_eq_some hf) with h1 | h2
            · simp [h1]
            · simp [h2]
        · positivity
    · exact min_le_left _ _

theorem dictInsert_of_not_key {m : List (String × ℚ)} {k : String} {v : ℚ}
    (h : m.any (fun p => p.1 == k) = false) :
    dictInsert m k v = m ++ [(k, v)] := by
  unfold dictInsert
  rw [h]
  simp

theorem buildPantryMap_aux (today : Int) :
    ∀ (l : List Item) (m : List (String × ℚ)),
      (∀ k ∈ (l.filterMap (weightedEntry today)).map Prod.fst,
        m.any (fun p => p.1 == k) = false) →
      (((l.filterMap (weightedEntry today)).map Prod.fst).Nodup) →
      l.foldl
        (fun m it =>
          match itemWeight today it with
          | none => m
          | some w => dictInsert m it.name.toLower w)
        m
      = m ++ l.filterMap (weightedEntry today) := by
  intro l
  induction l with
  | nil => intro m _ _; simp
  | cons it t ih =>
    intro m hdisj hnd
    cases hw : itemWeight today it with
    | none =>
      have hwe : weightedEntry today it = none := by
        simp [weightedEntry, hw]
      simp only [List.foldl_cons, hw, List.filterMap_cons, hwe] at hdisj hnd ⊢
      exact ih m hdisj hnd
    | some w =>
      have hwe : weightedEntry today it = some (it.name.toLower, w) := by
        simp [weightedEntry, hw]
      simp only [List.foldl_cons, hw, List.filterMap_cons, hwe, List.map_cons,
        List.nodup_cons, List.mem_cons, forall_eq_or_imp] at hdisj hnd ⊢
      obtain ⟨hkm, hdisj'⟩ := hdisj
      obtain ⟨hknt, hnd'⟩ := hnd
      rw [dictInsert_of_not_key hkm]
      rw [ih (m ++ [(it.name.toLower, w)]) ?_ hnd']
      · simp
      · intro k hk
        rw [List.any_append]
        have h1 : m.any (fun p => p.1 == k) = false := hdisj' k hk
        have h2 : (List.any [(it.name.toLower, w)] fun p => p.1 == k) = false := by
          simp only [List.any_cons, List.any_nil, Bool.or_false]
          have : it.name.toLower ≠ k := fun hc => hknt (hc ▸ hk)
          simp [this]
        rw [h1, h2]
        rfl

/-- When the weighted pantry items have pairwise-distinct lowercased names,
the `pantry_map` dict is exactly the list of weighted entries in pantry-list
order. -/
theorem buildPantryMap_eq_of_nodup {pantry : List Item} {today : Int}
    (hnd : ((weightedEntries pantry today).map Prod.fst).Nodup) :
    buildPantryMap pantry today = weightedEntries pantry today := by
  unfold buildPantryMap weightedEntries
  rw [buildPantryMap_aux today pantry [] (by intro k _; rfl) hnd]
  simp

/-! ### Range lemmas for the signed sub-scores -/

theorem clamp_range (a : ℚ) : -1 ≤ max (-1) (min 1 a) ∧ max (-1) (min 1 a) ≤ 1 :=
  ⟨le_max_left _ _, max_le (by norm_num) (min_le_left _ _)⟩

theorem nutrition_score_range {r : Recipe} {c : UserConstraints} {q : ℚ}
    {ex : String} {d : NutritionDebug}
    (h : compute_nutrition_score r c = .ok (q, ex, d)) : -1 ≤ q ∧ q ≤ 1 := by
  simp only [compute_nutrition_score] at h
  split at h
  · obtain ⟨h1, -⟩ := Prod.mk.injEq .. ▸ (Except.ok.inj h)
    subst h1; norm_num
  · split at h
    · obtain ⟨h1, -⟩ := Prod.mk.injEq .. ▸ (Except.ok.inj h)
      subst h1; norm_num
    · split at h
      · exact absurd h (by simp)
      · split at h
        · obtain ⟨h1, -⟩ := Prod.mk.injEq .. ▸ (Except.ok.inj h)
          subst h1; norm_num
        · obtain ⟨h1, -⟩ := Prod.mk.injEq .. ▸ (Except.ok.inj h)
          subst h1; exact clamp_range _

theorem mood_energy_score_range {P : Pred} {r : Recipe} {c : UserConstraints}
    {q : ℚ} {ex : String} {d : MoodEnergyDebug}
    (h : compute_mood_energy_score P r c = .ok (q, ex, d)) : -1 ≤ q ∧ q ≤ 1 := by
  simp only [compute_mood_energy_score] at h
  split at h
  · exact absurd h (by simp)
  · obtain ⟨h1, -⟩ := Prod.mk.injEq .. ▸ (Except.ok.inj h)
    subst h1; exact clamp_range _

/-! ### Structural lemmas about `score_recipes` -/

theorem scoreOne_ok_props {P : Pred} {pantry : List Item} {c : UserConstraints}
    {today : Int} {r : Recipe} {e : ScoredRecipe} (hp : p_ing r = true)
    (h : scoreOne P pantry c today r = .ok e) :
    e.recipe_id = r.id ∧ e.time_minutes = r.time_minutes ∧
    e.score = wOf "coverage" * e.coverage + wOf "expiring" * e.expiring
      + wOf "nutrition" * e.nutrition + wOf "mood_energy" * e.mood_energy ∧
    0 ≤ e.coverage ∧ e.coverage ≤ 1 ∧ 0 ≤ e.expiring ∧ e.expiring ≤ 1 ∧
    -1 ≤ e.nutrition ∧ e.nutrition ≤ 1 ∧ -1 ≤ e.mood_energy ∧ e.mood_energy ≤ 1 := by
  have hlen : 0 < ((ingNames r).length : ℚ) := by
    have : (ingNames r).isEmpty = false := by
      simpa [p_ing] using hp
    have hne : ingNames r ≠ [] := by
      simpa [List.isEmpty_iff] using this
    exact_mod_cast List.length_pos.mpr hne
  simp only [scoreOne] at h
  split at h
  · exact absurd h (by simp)
  · rename_i nres hn
    split at h
    · exact absurd h (by simp)
    · rename_i mres hm
      obtain ⟨nq, nex, nd⟩ := nres
      obtain ⟨mq, mex, md⟩ := mres
      have he := (Except.ok.inj h).symm
      subst he
      refine ⟨rfl, rfl, rfl, ?_, ?_, (expiring_score_range r pantry today).1,
        (expiring_score_range r pantry today).2,
        (nutrition_score_range hn).1, (nutrition_score_range hn).2,
        (mood_energy_score_range hm).1, (mood_energy_score_range hm).2⟩
      · exact div_nonneg (by positivity) (le_of_lt hlen)
      · rw [div_le_one hlen]
        exact_mod_cast List.length_filter_le _ _

theorem foldlM_scoreStep_mem {P : Pred} {pantry : List Item}
    {c : UserConstraints} {today : Int} :
    ∀ (rs : List Recipe) (acc out : List ScoredRecipe),
      rs.foldlM (scoreStep P pantry c today) acc = .ok out →
      ∀ e ∈ out, e ∈ acc ∨
        ∃ r, r ∈ rs ∧ hardFilterPass c r = true ∧
          scoreOne P pantry c today r = .ok e := by
  intro rs
  induction rs with
  | nil =>
    intro acc out h e he
    simp only [List.foldlM_nil] at h
    exact Or.inl ((Except.ok.inj h) ▸ he)
  | cons r t ih =>
    intro acc out h e he
    rw [List.foldlM_cons] at h
    cases hstep : scoreStep P pantry c today acc r with
    | error err =>
      rw [hstep] at h
      exact absurd h (by simp [Bind.bind, Except.bind])
    | ok acc' =>
      rw [hstep] at h
      simp only [Bind.bind, Except.bind] at h
      rcases ih acc' out h e he with hacc' | ⟨r', hr', hf', hs'⟩
      · simp only [scoreStep] at hstep
        split at hstep
        · rename_i hfil
          split at hstep
          · exact absurd hstep (by simp)
          · rename_i entry hone
            have : acc' = acc ++ [entry] := (Except.ok.inj hstep).symm
            subst this
            rcases List.mem_append.mp hacc' with hin | hin
            · exact Or.inl hin
            · right
              refine ⟨r, List.mem_cons_self .., hfil, ?_⟩
              rw [hone, (List.mem_singleton.mp hin)]
        · have : acc' = acc := (Except.ok.inj hstep).symm
          subst this
          exact Or.inl hacc'
      · exact Or.inr ⟨r', List.mem_cons_of_mem _ hr', hf', hs'⟩

theorem score_recipes_ok_mem {P : Pred} {recipes : List Recipe}
    {pantry : List Item} {c : UserConstraints} {today : Int}
    {out : List ScoredRecipe}
    (h : score_recipes P recipes pantry c today = .ok out) :
    ∀ e ∈ out, ∃ r, r ∈ recipes ∧ hardFilterPass c r = true ∧
      scoreOne P pantry c today r = .ok e := by
  intro e he
  simp only [score_recipes] at h
  split at h
  · exact absurd h (by simp)
  · rename_i scored hfold
    have hout : out = sortByScoreDesc scored := (Except.ok.inj h).symm
    subst hout
    have hmem : e ∈ scored := mem_sortByScoreDesc.mp he
    rcases foldlM_scoreStep_mem recipes [] scored hfold e hmem with habs | hgood
    · exact absurd habs (by simp)
    · exact hgood

/-! ### Well-typed recipes (no malformed macro values) -/

theorem toNum_ok {v : PyVal} (h : numOpt (some v) = true) :
    ∃ q, v = .num q := by
  cases v with
  | num q => exact ⟨q, rfl⟩
  | str s => simp [numOpt] at h

theorem attrBase_cases (r : Recipe) (k : String) :
    attrBase r k = r.protein_g ∨ attrBase r k = r.carbs_g ∨
      attrBase r k = r.fat_g ∨ attrBase r k = r.calories ∨
      attrBase r k = none := by
  unfold attrBase
  split <;> simp

theorem attrAlt_cases (r : Recipe) (k : String) :
    attrAlt r k = r.nutrition_protein_g ∨ attrAlt r k = r.nutrition_carbs_g ∨
      attrAlt r k = r.nutrition_fat_g ∨ attrAlt r k = r.nutrition_calories ∨
      attrAlt r k = r.nutrition_sugar_g ∨ attrAlt r k = none := by
  unfold attrAlt
  split <;> simp

theorem getNutrient_num {r : Recipe} (hwt : WellTyped r = true) (k : String) :
    numOpt (getNutrient r k) = true := by
  simp only [WellTyped, Bool.and_eq_true] at hwt
  obtain ⟨⟨⟨⟨⟨⟨⟨⟨h1, h2⟩, h3⟩, h4⟩, h5⟩, h6⟩, h7⟩, h8⟩, h9⟩ := hwt
  unfold getNutrient
  cases hb : attrBase r k with
  | some v =>
    rcases attrBase_cases r k with hc | hc | hc | hc | hc <;> rw [hc] at hb <;>
      simp_all
  | none =>
    rcases attrAlt_cases r k with hc | hc | hc | hc | hc | hc <;> rw [hc] <;>
      simp_all [numOpt]

theorem heuristicEnergy_ok (energy : String) {cal prot : Option PyVal}
    (tm : Option Int) (hc : numOpt cal = true) (hp : numOpt prot = true) :
    ∃ s rs, heuristicEnergy energy cal prot tm = .ok (s, rs) := by
  unfold heuristicEnergy
  split
  · cases cal with
    | none => exact ⟨_, _, rfl⟩
    | some v =>
      obtain ⟨q, hq⟩ := toNum_ok hc
      subst hq
      simp only [PyVal.toNum]
      split
      · exact ⟨_, _, rfl⟩
      · exact ⟨_, _, rfl⟩
  · split
    · cases prot with
      | none => exact ⟨_, _, rfl⟩
      | some v =>
        obtain ⟨q, hq⟩ := toNum_ok hp
        subst hq
        simp only [PyVal.toNum]
        split
        · exact ⟨_, _, rfl⟩
        · split
          · exact ⟨_, _, rfl⟩
          · exact ⟨_, _, rfl⟩
    · exact ⟨_, _, rfl⟩

theorem heuristicMood_ok (mood : String) {cal fat prot : Option PyVal}
    (hc : numOpt cal = true) (hf : numOpt fat = true) (hp : numOpt prot = true) :
    ∃ s rs, heuristicMood mood cal fat prot = .ok (s, rs) ∧ -(1/10) ≤ s := by
  unfold heuristicMood
  split
  · cases cal with
    | none => exact ⟨_, _, rfl, by norm_num⟩
    | some v =>
      obtain ⟨q, hq⟩ := toNum_ok hc
      subst hq
      simp only [PyVal.toNum]
      split
      · exact ⟨_, _, rfl, by norm_num⟩
      · exact ⟨_, _, rfl, by norm_num⟩
  · split
    · cases cal with
      | none => exact ⟨_, _, rfl, by norm_num⟩
      | some v =>
        obtain ⟨q, hq⟩ := toNum_ok hc
        subst hq
        simp only [PyVal.toNum]
        split
        · exact ⟨_, _, rfl, by norm_num⟩
        · cases fat with
          | none => exact ⟨_, _, rfl, by norm_num⟩
          | some w =>
            obtain ⟨q', hq'⟩ := toNum_ok hf
            subst hq'
            simp only [PyVal.toNum]
            split
            · exact ⟨_, _, rfl, by norm_num⟩
            · exact ⟨_, _, rfl, by norm_num⟩
    · split
      · cases prot with
        | none => exact ⟨_, _, rfl, by norm_num⟩
        | some v =>
          obtain ⟨q, hq⟩ := toNum_ok hp
          subst hq
          simp only [PyVal.toNum]
          split
          · exact ⟨_, _, rfl, by norm_num⟩
          · exact ⟨_, _, rfl, by norm_num⟩
      · exact ⟨_, _, rfl, by norm_num⟩

theorem heuristicHints_ok (s0 : ℚ) (rs0 : List String) (energy mood : String)
    {cal fat prot : Option PyVal} (tm : Option Int)
    (hc : numOpt cal = true) (hf : numOpt fat = true) (hp : numOpt prot = true) :
    ∃ s rs, heuristicHints s0 rs0 energy mood cal fat prot tm = .ok (s, rs) := by
  obtain ⟨se, re, he⟩ := heuristicEnergy_ok energy tm hc hp
  obtain ⟨sm, rm, hm, -⟩ := heuristicMood_ok mood hc hf hp
  exact ⟨_, _, by rw [heuristicHints, he, hm]⟩

/-! ### Filter-stage lemmas -/

theorem applyStages_eq_filter_all (c : UserConstraints) :
    ∀ (order : List FilterStage) (rs : List Recipe),
      applyStages order c rs
        = rs.filter (fun r => order.all (fun s => stagePred s c r)) := by
  intro order
  induction order with
  | nil =>
    intro rs
    simp [applyStages]
  | cons s t ih =>
    intro rs
    simp only [applyStages, List.foldl_cons] at ih ⊢
    rw [ih (rs.filter (stagePred s c)), List.filter_filter]
    apply List.filter_congr
    intro r _
    simp [List.all_cons, Bool.and_comm]

theorem perm_all {α : Type} {l₁ l₂ : List α} (h : l₁.Perm l₂) (f : α → Bool) :
    l₁.all f = l₂.all f := by
  induction h with
  | nil => rfl
  | cons x _ ih => simp [List.all_cons, ih]
  | swap x y l =>
    simp only [List.all_cons, ← Bool.and_assoc]
    rw [Bool.and_comm (f y) (f x)]
  | trans _ _ ih₁ ih₂ => rw [ih₁, ih₂]

theorem all_stageOrder_eq_hardFilterPass (c : UserConstraints) (r : Recipe) :
    stageOrder.all (fun s => stagePred s c r) = hardFilterPass c r := by
  simp [stageOrder, stagePred, hardFilterPass, List.all_cons]

/-! ### Claim theorems -/

/-- C5: for every recipe surviving the hard filters, the returned final
score equals exactly 0.30×coverage + 0.25×expiring + 0.20×nutrition +
0.25×mood_energy, where coverage and expiring lie in [0,1] and nutrition and
mood_energy lie in [-1,1], so the composite lies in [-0.45, 1.0] and is not
renormalized. -/
theorem c5_composite_score_weighted_sum (P : Pred) (recipes : List Recipe)
    (pantry : List Item) (c : UserConstraints) (today : Int)
    (out : List ScoredRecipe) (e : ScoredRecipe)
    (hok : score_recipes P recipes pantry c today = .ok out) (he : e ∈ out) :
    e.score = (30/100) * e.coverage + (25/100) * e.expiring
      + (20/100) * e.nutrition + (25/100) * e.mood_energy
    ∧ 0 ≤ e.coverage ∧ e.coverage ≤ 1 ∧ 0 ≤ e.expiring ∧ e.expiring ≤ 1
    ∧ -1 ≤ e.nutrition ∧ e.nutrition ≤ 1
    ∧ -1 ≤ e.mood_energy ∧ e.mood_energy ≤ 1
    ∧ -(45/100) ≤ e.score ∧ e.score ≤ 1 := by
  obtain ⟨r, hr, hf, hs⟩ := score_recipes_ok_mem hok e he
  have hping : p_ing r = true := by
    simp only [hardFilterPass, Bool.and_eq_true] at hf
    exact hf.1
  obtain ⟨-, -, hscore, hc0, hc1, he0, he1, hn0, hn1, hm0, hm1⟩ :=
    scoreOne_ok_props hping hs
  have hwc : wOf "coverage" = 30/100 := by with_unfolding_all decide
  have hwe : wOf "expiring" = 25/100 := by with_unfolding_all decide
  have hwn : wOf "nutrition" = 20/100 := by with_unfolding_all decide
  have hwm : wOf "mood_energy" = 25/100 := by with_unfolding_all decide
  rw [hwc, hwe, hwn, hwm] at hscore
  refine ⟨hscore, hc0, hc1, he0, he1, hn0, hn1, hm0, hm1, ?_, ?_⟩
  · rw [hscore]; linarith
  · rw [hscore]; linarith

/-- Witness for C5 at the end-to-end fixture. -/
theorem c5_witness :
    eBowl.score = (30/100) * eBowl.coverage + (25/100) * eBowl.expiring
      + (20/100) * eBowl.nutrition + (25/100) * eBowl.mood_energy
    ∧ 0 ≤ eBowl.coverage ∧ eBowl.coverage ≤ 1
    ∧ 0 ≤ eBowl.expiring ∧ eBowl.expiring ≤ 1
    ∧ -1 ≤ eBowl.nutrition ∧ eBowl.nutrition ≤ 1
    ∧ -1 ≤ eBowl.mood_energy ∧ eBowl.mood_energy ≤ 1
    ∧ -(45/100) ≤ eBowl.score ∧ eBowl.score ≤ 1 :=
  c5_composite_score_weighted_sum predFail [rBowl] [] cGoalHP 0 outBowl eBowl
    (by set_option maxRecDepth 100000 in with_unfolding_all rfl)
    (by set_option maxRecDepth 100000 in with_unfolding_all decide)

/-- C3 counterexample: with `max_time_minutes = 0` (a set value) and
`time_minutes = 45 > 0`, the recipe is NOT discarded — it is scored and
returned, because the Python truthiness test skips the filter for 0. -/
theorem c3_counterexample_time_zero :
    (score_recipes predFail [rTime45] [] cTime0 0).map
        (fun l => l.map (fun e => (e.recipe_id, e.time_minutes)))
      = .ok [(7, some 45)] := by
  with_unfolding_all rfl

/-- C3 amended: if `max_time_minutes` is set to a NON-ZERO value and the
recipe's `time_minutes` is set and non-zero and exceeds the limit, the
recipe is discarded entirely (every returned entry with a non-zero time is
within the limit); in particular `max_time_minutes = 30` excludes every
recipe with `time_minutes = 45`. -/
theorem c3_amended_nonzero_time_filter (P : Pred) (recipes : List Recipe)
    (pantry : List Item) (c : UserConstraints) (today : Int)
    (out : List ScoredRecipe) (m : Int)
    (hm : c.max_time_minutes = some m) (hm0 : m ≠ 0)
    (hok : score_recipes P recipes pantry c today = .ok out)
    (e : ScoredRecipe) (he : e ∈ out) (t : Int)
    (ht : e.time_minutes = some t) (ht0 : t ≠ 0) : t ≤ m := by
  obtain ⟨r, hr, hf, hs⟩ := score_recipes_ok_mem hok e he
  have hping : p_ing r = true := by
    simp only [hardFilterPass, Bool.and_eq_true] at hf
    exact hf.1
  have htime : p_time c r = true := by
    simp only [hardFilterPass, Bool.and_eq_true] at hf
    exact hf.2.1
  obtain ⟨-, hetm, -⟩ := scoreOne_ok_props hping hs
  have hrt : r.time_minutes = some t := by
    rw [← hetm, ht]
  simp only [p_time, hm, hrt] at htime
  rw [if_pos ⟨hm0, ht0⟩] at htime
  exact of_decide_eq_true htime

/-- Witness for C3 (amended): a 25-minute recipe survives the 30-minute
limit, and the theorem bounds its returned time by the limit. -/
theorem c3_witness : (25 : Int) ≤ 30 :=
  c3_amended_nonzero_time_filter predFail [rTime25] [] cTime30 0 outTime30 30
    (by rfl) (by decide) (by with_unfolding_all rfl) (outTime30.headD default)
    (by with_unfolding_all decide) 25 (by with_unfolding_all rfl) (by decide)

/-- C9: the set of recipes surviving the five hard-filter stages is the same
under any permutation of the stage order, since each stage is an independent
boolean predicate of the recipe and the constraints. -/
theorem c9_hard_filter_order_independent (c : UserConstraints)
    (rs : List Recipe) (order : List FilterStage)
    (hperm : order.Perm stageOrder) :
    applyStages order c rs = rs.filter (hardFilterPass c) := by
  rw [applyStages_eq_filter_all]
  apply List.filter_congr
  intro r _
  rw [perm_all hperm, all_stageOrder_eq_hardFilterPass]

/-- Witness for C9: the reversed stage order gives the same survivor set. -/
theorem c9_witness :
    applyStages [.excludeBan, .includeReq, .dietMatch, .timeLimit, .ingPresence]
        cTime30 [rTime45, rTime25]
      = [rTime45, rTime25].filter (hardFilterPass cTime30) :=
  c9_hard_filter_order_independent cTime30 [rTime45, rTime25]
    [.excludeBan, .includeReq, .dietMatch, .timeLimit, .ingPresence] (by decide)

/-- C2 counterexample: the sole ingredient "milk" first matches the pantry
item "oat milk" (no expiration date, hence no weight), so under the claimed
rule it would contribute nothing and the score would be 0; the code instead
matches the weight map (which holds only weighted items), takes the weight of
the later item "milk", and yields score 1. -/
theorem c2_counterexample_first_match :
    claimExpiringScoreC2 rMilk pantryC2 0 = 0 ∧
    (compute_expiring_score rMilk pantryC2 0).1 = 1 ∧
    claimExpiringScoreC2 rMilk pantryC2 0 ≠ (compute_expiring_score rMilk pantryC2 0).1 := by
  refine ⟨?_, ?_, ?_⟩ <;> with_unfolding_all decide

/-- C2 amended: recipe ingredients are processed in original order, and each
ingredient's contribution is the weight-map entry of the first WEIGHTED
pantry item (in pantry-list order) whose name matches it — pantry items
carrying no weight are excluded from the map rather than blocking the match —
provided the weighted pantry items have pairwise-distinct lowercased names;
each recipe ingredient contributes at most once. -/
theorem c2_amended_first_weighted_match (r : Recipe) (pantry : List Item)
    (today : Int)
    (hnd : ((weightedEntries pantry today).map Prod.fst).Nodup) :
    compute_expiring_score r pantry today
      = (min 1 (((ingNames r).map (ingContribution (weightedEntries pantry today))).sum
          / ((ingNames r).length : ℚ)),
         (ingNames r).filterMap (ingMatchName (weightedEntries pantry today))) := by
  simp only [compute_expiring_score]
  rw [buildPantryMap_eq_of_nodup hnd]
  split
  · rename_i hemp
    have hnil : ingNames r = [] := List.isEmpty_iff.mp hemp
    rw [hnil]
    simp
  · rw [expMatchFold_eq]

/-- Witness for C2 (amended) at the counterexample pantry. -/
theorem c2_witness :
    compute_expiring_score rMilk pantryC2 0
      = (min 1 (((ingNames rMilk).map (ingContribution (weightedEntries pantryC2 0))).sum
          / ((ingNames rMilk).length : ℚ)),
         (ingNames rMilk).filterMap (ingMatchName (weightedEntries pantryC2 0))) :=
  c2_amended_first_weighted_match rMilk pantryC2 0 (by with_unfolding_all decide)

/-- C6: a pantry item with a valid expiration date carries weight 1.0 when
0 ≤ days-until-expiry ≤ 7, weight 0.5 when 7 < days ≤ 14, and no weight
otherwise (also when the date is absent or unparsable); an item expiring in
5 days contributes 1.0, in 10 days 0.5, in 40 days 0; the expiry score is
the accumulated weight divided by the recipe's ingredient count, capped at
1.0, and a recipe with zero ingredients gets score 0 with an empty matched
list. -/
theorem c6_expiry_weight_windows :
    (∀ (today : Int) (it : Item) (d : Int),
      (it.expiration_date = some (.onDate d) ∨ it.expiration_date = some (.isoStr d)) →
        ((0 ≤ d - today ∧ d - today ≤ 7) → itemWeight today it = some 1) ∧
        ((7 < d - today ∧ d - today ≤ 14) → itemWeight today it = some (1/2)) ∧
        ((d - today < 0 ∨ 14 < d - today) → itemWeight today it = none)) ∧
    (∀ (today : Int) (it : Item),
      (it.expiration_date = none ∨ it.expiration_date = some .badStr) →
        itemWeight today it = none) ∧
    (compute_expiring_score rMilk [{ name := "milk", expiration_date := some (.onDate 5) }] 0).1 = 1 ∧
    (compute_expiring_score rMilk [{ name := "milk", expiration_date := some (.onDate 10) }] 0).1 = 1/2 ∧
    (compute_expiring_score rMilk [{ name := "milk", expiration_date := some (.onDate 40) }] 0).1 = 0 ∧
    (∀ (r : Recipe) (pantry : List Item) (today : Int), r.ingredients = [] →
      compute_expiring_score r pantry today = (0, [])) ∧
    (∀ (r : Recipe) (pantry : List Item) (today : Int),
      (compute_expiring_score r pantry today).1
        = if (ingNames r).isEmpty then 0
          else min 1 (((ingNames r).map (ingContribution (buildPantryMap pantry today))).sum
            / ((ingNames r).length : ℚ))) := by
  refine ⟨?_, ?_, ?_, ?_, ?_, ?_, ?_⟩
  · intro today it d hed
    obtain ⟨name, ed⟩ := it
    rcases hed with hed | hed <;> simp only at hed <;> subst hed <;>
      refine ⟨fun hw => ?_, fun hw => ?_, fun hw => ?_⟩ <;>
      simp only [itemWeight] <;>
      [rw [if_pos hw]; (rw [if_neg (by omega), if_pos hw]);
       (rw [if_neg (by omega), if_neg (by omega)]);
       rw [if_pos hw]; (rw [if_neg (by omega), if_pos hw]);
       (rw [if_neg (by omega), if_neg (by omega)])]
  · intro today it hed
    obtain ⟨name, ed⟩ := it
    rcases hed with hed | hed <;> simp only at hed <;> subst hed <;> rfl
  · with_unfolding_all decide
  · with_unfolding_all decide
  · with_unfolding_all decide
  · intro r pantry today hing
    simp [compute_expiring_score, ingNames, hing]
  · intro r pantry today
    simp only [compute_expiring_score]
    split
    · rfl
    · simp only [expMatchFold_eq]

/-- Witness for C6 at concrete items and an empty recipe. -/
theorem c6_witness :
    itemWeight 0 { name := "tomato", expiration_date := some (.onDate 5) } = some 1
    ∧ itemWeight 0 { name := "tomato", expiration_date := some (.onDate 20) } = none
    ∧ compute_expiring_score { id := 99, ingredients := [] } [] 0 = (0, []) :=
  ⟨(c6_expiry_weight_windows.1 0 _ 5 (Or.inl rfl)).1 (by norm_num),
   (c6_expiry_weight_windows.1 0 _ 20 (Or.inl rfl)).2.2 (by norm_num),
   c6_expiry_weight_windows.2.2.2.2.2.1 _ [] 0 rfl⟩

theorem lookup_thresholds_cases {g : String} {th : List (String × ℚ)}
    (h : NUTRITION_THRESHOLDS.lookup g = some th) :
    (g = "high_protein" ∧ th = [("protein_g", 30)]) ∨
    (g = "low_carb" ∧ th = [("carbs_g", 35)]) ∨
    (g = "low_calorie" ∧ th = [("calories", 550)]) := by
  by_cases h1 : g = "high_protein"
  · subst h1
    simp only [NUTRITION_THRESHOLDS, List.lookup, beq_self_eq_true] at h
    exact Or.inl ⟨rfl, (Option.some.inj h).symm⟩
  · by_cases h2 : g = "low_carb"
    · subst h2
      simp only [NUTRITION_THRESHOLDS, List.lookup,
        show (("low_carb" : String) == "high_protein") = false from by decide,
        beq_self_eq_true] at h
      exact Or.inr (Or.inl ⟨rfl, (Option.some.inj h).symm⟩)
    · by_cases h3 : g = "low_calorie"
      · subst h3
        simp only [NUTRITION_THRESHOLDS, List.lookup,
          show (("low_calorie" : String) == "high_protein") = false from by decide,
          show (("low_calorie" : String) == "low_carb") = false from by decide,
          beq_self_eq_true] at h
        exact Or.inr (Or.inr ⟨rfl, (Option.some.inj h).symm⟩)
      · simp only [NUTRITION_THRESHOLDS, List.lookup,
          beq_eq_false_iff_ne.mpr h1, beq_eq_false_iff_ne.mpr h2,
          beq_eq_false_iff_ne.mpr h3] at h
        exact absurd h (by simp)

theorem lookup_thresholds_none {g : String} (h1 : g ≠ "high_protein")
    (h2 : g ≠ "low_carb") (h3 : g ≠ "low_calorie") :
    NUTRITION_THRESHOLDS.lookup g = none := by
  simp only [NUTRITION_THRESHOLDS, List.lookup, beq_eq_false_iff_ne.mpr h1,
    beq_eq_false_iff_ne.mpr h2, beq_eq_false_iff_ne.mpr h3]

/-- C10: a non-empty explicit `nutrition_goal` outside
{"high_protein", "low_carb", "low_calorie"} (e.g. "keto") is resolved as the
goal by `infer_nutrition_goal`, yet `compute_nutrition_score` returns exactly
score 0.0 with explanation "No nutrition goal specified" and never raises —
an unrecognized explicit goal behaves like no goal at all. -/
theorem c10_unknown_goal_neutral (r : Recipe) (c : UserConstraints) (g : String)
    (hg : c.nutrition_goal = some g) (hne : g ≠ "")
    (h1 : g ≠ "high_protein") (h2 : g ≠ "low_carb") (h3 : g ≠ "low_calorie") :
    infer_nutrition_goal c = some g ∧
    ∃ d, compute_nutrition_score r c = .ok (0, "No nutrition goal specified", d) := by
  have hinf : infer_nutrition_goal c = some g := by
    simp only [infer_nutrition_goal, hg, truthyStr, beq_eq_false_iff_ne.mpr hne,
      Bool.not_false, if_true]
  refine ⟨hinf, ?_⟩
  refine ⟨⟨some g, none, [], [], [], none⟩, ?_⟩
  simp only [compute_nutrition_score, hinf, lookup_thresholds_none h1 h2 h3,
    Option.isNone_none, Bool.or_true, if_true]

/-- Witness for C10 with the goal "keto". -/
theorem c10_witness :
    infer_nutrition_goal cKeto = some "keto" ∧
    ∃ d, compute_nutrition_score rGoodMacro cKeto
      = .ok (0, "No nutrition goal specified", d) :=
  c10_unknown_goal_neutral rGoodMacro cKeto "keto" rfl (by decide) (by decide)
    (by decide) (by decide)

/-- C4: the nutrition scoring curve.  With a single macro per goal, the
final score equals the macro's component: +1.0 at >=1.3*target (high) or
<=0.7*target (low), +0.6 (high) / +0.4 (low) on meeting the target, -0.5
(high) / -0.6 (low) otherwise; under `high_protein`, protein 40 scores > 0
and protein 10 scores < 0; with the goal's macro missing the score is
exactly 0.0 with explanation "No nutrition data on recipe". -/
theorem c4_nutrition_scoring_curve :
    (∀ (r : Recipe) (c : UserConstraints) (v : ℚ),
      infer_nutrition_goal c = some "high_protein" →
      getNutrient r "protein_g" = some (.num v) →
      (30 * (13/10) ≤ v → nScoreOf r c = .ok 1) ∧
      (30 ≤ v → ¬ 30 * (13/10) ≤ v → nScoreOf r c = .ok (3/5)) ∧
      (¬ 30 ≤ v → nScoreOf r c = .ok (-(1/2)))) ∧
    (∀ (r : Recipe) (c : UserConstraints) (v : ℚ),
      infer_nutrition_goal c = some "low_carb" →
      getNutrient r "carbs_g" = some (.num v) →
      (v ≤ 35 * (7/10) → nScoreOf r c = .ok 1) ∧
      (v ≤ 35 → ¬ v ≤ 35 * (7/10) → nScoreOf r c = .ok (2/5)) ∧
      (¬ v ≤ 35 → nScoreOf r c = .ok (-(3/5)))) ∧
    (∀ (r : Recipe) (c : UserConstraints) (v : ℚ),
      infer_nutrition_goal c = some "low_calorie" →
      getNutrient r "calories" = some (.num v) →
      (v ≤ 550 * (7/10) → nScoreOf r c = .ok 1) ∧
      (v ≤ 550 → ¬ v ≤ 550 * (7/10) → nScoreOf r c = .ok (2/5)) ∧
      (¬ v ≤ 550 → nScoreOf r c = .ok (-(3/5)))) ∧
    (∀ (r : Recipe) (c : UserConstraints) (g k : String) (t : ℚ),
      infer_nutrition_goal c = some g →
      NUTRITION_THRESHOLDS.lookup g = some [(k, t)] →
      getNutrient r k = none →
      nScoreOf r c = .ok 0 ∧ nExplOf r c = .ok "No nutrition data on recipe"
        ∧ pyIn "No nutrition data" "No nutrition data on recipe" = true) ∧
    (∀ (r : Recipe) (c : UserConstraints),
      infer_nutrition_goal c = some "high_protein" →
      getNutrient r "protein_g" = some (.num 40) →
      ∃ s, nScoreOf r c = .ok s ∧ 0 < s) ∧
    (∀ (r : Recipe) (c : UserConstraints),
      infer_nutrition_goal c = some "high_protein" →
      getNutrient r "protein_g" = some (.num 10) →
      ∃ s, nScoreOf r c = .ok s ∧ s < 0) := by
  have hhp : ∀ (r : Recipe) (c : UserConstraints) (v : ℚ),
      infer_nutrition_goal c = some "high_protein" →
      getNutrient r "protein_g" = some (.num v) →
      (30 * (13/10) ≤ v → nScoreOf r c = .ok 1) ∧
      (30 ≤ v → ¬ 30 * (13/10) ≤ v → nScoreOf r c = .ok (3/5)) ∧
      (¬ 30 ≤ v → nScoreOf r c = .ok (-(1/2))) := by
    intro r c v hg hv
    refine ⟨fun h1 => ?_, fun h2 h1 => ?_, fun h2 => ?_⟩
    · simp [nScoreOf, compute_nutrition_score, hg, NUTRITION_THRESHOLDS,
        List.lookup, truthyStr, nutritionStep, hv, PyVal.toNum, h1, Except.map]
      try norm_num [min_def, max_def]
    · simp [nScoreOf, compute_nutrition_score, hg, NUTRITION_THRESHOLDS,
        List.lookup, truthyStr, nutritionStep, hv, PyVal.toNum, h1, h2,
        Except.map]
      try norm_num [min_def, max_def]
    · have h1 : ¬ 30 * (13/10 : ℚ) ≤ v := fun hc => h2 (by linarith)
      simp [nScoreOf, compute_nutrition_score, hg, NUTRITION_THRESHOLDS,
        List.lookup, truthyStr, nutritionStep, hv, PyVal.toNum, h1, h2,
        Except.map]
      try norm_num [min_def, max_def]
  refine ⟨hhp, ?_, ?_, ?_, ?_, ?_⟩
  · intro r c v hg hv
    refine ⟨fun h1 => ?_, fun h2 h1 => ?_, fun h2 => ?_⟩
    · simp [nScoreOf, compute_nutrition_score, hg, NUTRITION_THRESHOLDS,
        List.lookup, truthyStr, nutritionStep, hv, PyVal.toNum, h1, Except.map]
      try norm_num [min_def, max_def]
    · simp [nScoreOf, compute_nutrition_score, hg, NUTRITION_THRESHOLDS,
        List.lookup, truthyStr, nutritionStep, hv, PyVal.toNum, h1, h2,
        Except.map]
      try norm_num [min_def, max_def]
    · have h1 : ¬ v ≤ 35 * (7/10 : ℚ) := fun hc => h2 (by linarith)
      simp [nScoreOf, compute_nutrition_score, hg, NUTRITION_THRESHOLDS,
        List.lookup, truthyStr, nutritionStep, hv, PyVal.toNum, h1, h2,
        Except.map]
      try norm_num [min_def, max_def]
  · intro r c v hg hv
    refine ⟨fun h1 => ?_, fun h2 h1 => ?_, fun h2 => ?_⟩
    · simp [nScoreOf, compute_nutrition_score, hg, NUTRITION_THRESHOLDS,
        List.lookup, truthyStr, nutritionStep, hv, PyVal.toNum, h1, Except.map]
      try norm_num [min_def, max_def]
    · simp [nScoreOf, compute_nutrition_score, hg, NUTRITION_THRESHOLDS,
        List.lookup, truthyStr, nutritionStep, hv, PyVal.toNum, h1, h2,
        Except.map]
      try norm_num [min_def, max_def]
    · have h1 : ¬ v ≤ 550 * (7/10 : ℚ) := fun hc => h2 (by linarith)
      simp [nScoreOf, compute_nutrition_score, hg, NUTRITION_THRESHOLDS,
        List.lookup, truthyStr, nutritionStep, hv, PyVal.toNum, h1, h2,
        Except.map]
      try norm_num [min_def, max_def]
  · intro r c g k t hg hlook hv
    refine ⟨?_, ?_, by decide⟩ <;>
    · rcases lookup_thresholds_cases hlook with ⟨hg', hth⟩ | ⟨hg', hth⟩ | ⟨hg', hth⟩ <;>
        subst hg' <;>
        (obtain ⟨hk, ht⟩ : k = _ ∧ t = _ := by simpa using hth) <;>
        subst hk <;> subst ht <;>
        simp [nScoreOf, nExplOf, compute_nutrition_score, hg,
          NUTRITION_THRESHOLDS, List.lookup, truthyStr, nutritionStep, hv, Except.map]
      try norm_num [min_def, max_def]
  · intro r c hg hv
    have h1 : 30 * (13/10 : ℚ) ≤ 40 := by norm_num
    exact ⟨1, (hhp r c 40 hg hv).1 h1, by norm_num⟩
  · intro r c hg hv
    have h2 : ¬ (30 : ℚ) ≤ 10 := by norm_num
    exact ⟨-(1/2), (hhp r c 10 hg hv).2.2 h2, by norm_num⟩

/-- Witness for C4: protein 40 scores 1 (> 0), protein 10 scores < 0, and a
recipe with no macros scores exactly 0 with the "No nutrition data" text. -/
theorem c4_witness :
    nScoreOf { id := 50, protein_g := some (.num 40) } cGoalHP = .ok 1
    ∧ (∃ s, nScoreOf { id := 51, protein_g := some (.num 10) } cGoalHP = .ok s ∧ s < 0)
    ∧ nScoreOf { id := 52 } cGoalHP = .ok 0
    ∧ nExplOf { id := 52 } cGoalHP = .ok "No nutrition data on recipe" :=
  ⟨(c4_nutrition_scoring_curve.1 { id := 50, protein_g := some (.num 40) }
      cGoalHP 40 rfl rfl).1 (by norm_num),
   c4_nutrition_scoring_curve.2.2.2.2.2 { id := 51, protein_g := some (.num 10) }
      cGoalHP rfl rfl,
   (c4_nutrition_scoring_curve.2.2.2.1 { id := 52 } cGoalHP "high_protein"
      "protein_g" 30 rfl rfl rfl).1,
   (c4_nutrition_scoring_curve.2.2.2.1 { id := 52 } cGoalHP "high_protein"
      "protein_g" 30 rfl rfl rfl).2.1⟩

/-- C1 (code bug): a malformed non-numeric macro value on one recipe is NOT
skipped at its point of use — the comparison raises, the exception escapes
`score_recipes`, and the remaining recipes are not ranked; the same call
without the malformed recipe succeeds. -/
theorem c1_malformed_value_aborts_ranking :
    score_recipes predFail [rBadMacro, rGoodMacro] [] cGoalHP 0
      = .error "TypeError: comparison not supported between str and number"
    ∧ (score_recipes predFail [rGoodMacro] [] cGoalHP 0).isOk = true := by
  constructor
  · with_unfolding_all rfl
  · set_option maxRecDepth 100000 in with_unfolding_all rfl

/-- When the predictor raises, `compute_mood_energy_score` records the error
in the debug dict, leaves the ML flags unset, and produces exactly the
clamped heuristic result started from score 0 and no reasons. -/
theorem compute_mood_energy_fallback {P : Pred} {r : Recipe}
    {c : UserConstraints} {msg : String} {cv : PyVal} {s2 : ℚ}
    {rs2 : List String}
    (hc : getNutrient r "calories" = some cv)
    (hP : P (nutritionData cv (getNutrient r "protein_g")
        (getNutrient r "carbs_g") (getNutrient r "fat_g")
        (getNutrient r "sugar_g")) = .error msg)
    (hh : heuristicHints 0 [] ((c.energy_level.getD "").toLower)
        ((c.mood.getD "").toLower) (getNutrient r "calories")
        (getNutrient r "fat_g") (getNutrient r "protein_g")
        r.time_minutes = .ok (s2, rs2)) :
    compute_mood_energy_score P r c
      = .ok (max (-1) (min 1 s2),
          (if !rs2.isEmpty then pyJoin "; " rs2 else "Mood/energy neutral"),
          ⟨(c.mood.getD "").toLower, (c.energy_level.getD "").toLower,
            getNutrient r "calories", getNutrient r "fat_g",
            getNutrient r "protein_g", getNutrient r "carbs_g",
            getNutrient r "sugar_g", r.time_minutes,
            false, none, none, some msg, some (max (-1) (min 1 s2))⟩) := by
  rw [hc] at hh
  simp only [compute_mood_energy_score, hc, hP]
  simp [hh]

/-- C7: if the external predictor raises during `compute_mood_energy_score`
on a recipe with well-typed macros, the exception is caught at the scorer
boundary, the error string is recorded in the debug dict under `ml_error`,
and the result is exactly the heuristic fallback — the exception never
propagates. -/
theorem c7_predictor_failure_contained (P : Pred) (r : Recipe)
    (c : UserConstraints) (msg : String) (cv : PyVal)
    (hwt : WellTyped r = true)
    (hc : getNutrient r "calories" = some cv)
    (hP : P (nutritionData cv (getNutrient r "protein_g")
        (getNutrient r "carbs_g") (getNutrient r "fat_g")
        (getNutrient r "sugar_g")) = .error msg) :
    ∃ s2 rs2 d,
      heuristicHints 0 [] ((c.energy_level.getD "").toLower)
        ((c.mood.getD "").toLower) (getNutrient r "calories")
        (getNutrient r "fat_g") (getNutrient r "protein_g")
        r.time_minutes = .ok (s2, rs2) ∧
      compute_mood_energy_score P r c
        = .ok (max (-1) (min 1 s2),
            (if !rs2.isEmpty then pyJoin "; " rs2 else "Mood/energy neutral"), d) ∧
      d.ml_error = some msg ∧ d.ml_used = false := by
  obtain ⟨s2, rs2, hh⟩ := heuristicHints_ok 0 []
    ((c.energy_level.getD "").toLower) ((c.mood.getD "").toLower)
    r.time_minutes
    (getNutrient_num hwt "calories") (getNutrient_num hwt "fat_g")
    (getNutrient_num hwt "protein_g")
  exact ⟨s2, rs2, _, hh, compute_mood_energy_fallback hc hP hh, rfl, rfl⟩

/-- Witness for C7 at a concrete recipe and failing predictor. -/
theorem c7_witness :
    ∃ s2 rs2 d,
      heuristicHints 0 [] ((cLowEnergy.energy_level.getD "").toLower)
        ((cLowEnergy.mood.getD "").toLower) (getNutrient rLight "calories")
        (getNutrient rLight "fat_g") (getNutrient rLight "protein_g")
        rLight.time_minutes = .ok (s2, rs2) ∧
      compute_mood_energy_score predFail rLight cLowEnergy
        = .ok (max (-1) (min 1 s2),
            (if !rs2.isEmpty then pyJoin "; " rs2 else "Mood/energy neutral"), d) ∧
      d.ml_error = some "predictor unavailable" ∧ d.ml_used = false :=
  c7_predictor_failure_contained predFail rLight cLowEnergy
    "predictor unavailable" (.num 450) rfl rfl rfl

/-- C8: with calories 450, time 15, energy "low", well-typed macros, and a
failing predictor (no ML result available), the heuristic path fires the
+0.3 "lighter on calories" and +0.1 "quick prep" hints, so the score is
strictly positive and the explanation mentions "lighter" or "quick". -/
theorem c8_low_energy_heuristic (P : Pred) (r : Recipe) (c : UserConstraints)
    (msg : String)
    (hwt : WellTyped r = true)
    (hcal : getNutrient r "calories" = some (.num 450))
    (htm : r.time_minutes = some 15)
    (hen : (c.energy_level.getD "").toLower = "low")
    (hP : P (nutritionData (.num 450) (getNutrient r "protein_g")
        (getNutrient r "carbs_g") (getNutrient r "fat_g")
        (getNutrient r "sugar_g")) = .error msg) :
    ∃ s ex d, compute_mood_energy_score P r c = .ok (s, ex, d) ∧ 0 < s ∧
      (pyIn "lighter" ex = true ∨ pyIn "quick" ex = true) := by
  have he : heuristicEnergy ((c.energy_level.getD "").toLower)
      (getNutrient r "calories") (getNutrient r "protein_g") r.time_minutes
      = .ok (2/5, ["lighter on calories for low energy",
          "quick prep for low energy"]) := by
    rw [hen, hcal, htm]
    simp [heuristicEnergy, PyVal.toNum]
    norm_num
  obtain ⟨sm, rm, hm, hsm⟩ := heuristicMood_ok
    ((c.mood.getD "").toLower)
    (getNutrient_num hwt "calories") (getNutrient_num hwt "fat_g")
    (getNutrient_num hwt "protein_g")
  have hh : heuristicHints 0 [] ((c.energy_level.getD "").toLower)
      ((c.mood.getD "").toLower) (getNutrient r "calories")
      (getNutrient r "fat_g") (getNutrient r "protein_g") r.time_minutes
      = .ok (0 + 2/5 + sm, [] ++ ["lighter on calories for low energy",
          "quick prep for low energy"] ++ rm) := by
    rw [heuristicHints, he, hm]
  have hres := compute_mood_energy_fallback hcal hP hh
  refine ⟨_, _, _, hres, ?_, ?_⟩
  · have h1 : (3/10 : ℚ) ≤ 0 + 2/5 + sm := by linarith
    have h2 : (3/10 : ℚ) ≤ min 1 (0 + 2/5 + sm) := le_min (by norm_num) h1
    have h3 : (3/10 : ℚ) ≤ max (-1) (min 1 (0 + 2/5 + sm)) :=
      le_trans h2 (le_max_right _ _)
    linarith
  · left
    have hne : (!([] ++ ["lighter on calories for low energy",
        "quick prep for low energy"] ++ rm).isEmpty) = true := by
      simp
    rw [if_pos hne]
    obtain ⟨y, hy⟩ := pyJoin_cons "; " "lighter on calories for low energy"
      ("quick prep for low energy" :: rm)
    simp only [List.nil_append, List.cons_append]
    rw [hy]
    exact pyIn_append_left y (by decide)

/-- Witness for C8 at the concrete fixture. -/
theorem c8_witness :
    ∃ s ex d, compute_mood_energy_score predFail rLight cLowEnergy
      = .ok (s, ex, d) ∧ 0 < s ∧
      (pyIn "lighter" ex = true ∨ pyIn "quick" ex = true) :=
  c8_low_energy_heuristic predFail rLight cLowEnergy "predictor unavailable"
    rfl rfl rfl (by with_unfolding_all rfl) rfl

end ChatScoring
